import Mathlib

/-!
Shallow embedding of `src/lib/core/TimeSliderControl.ts` from
maplibre-gl-time-slider.

The control's runtime state (`TimeSliderState` plus the private fields that
matter for the lifecycle: the playback timer handle, the DOM/host references,
the registered listeners and the event-handler map) is modelled as a Lean
structure.  Each public operation is a function `TSState → TSState × List Effect`
where the `Effect` trace records, in order, every event emission (`_emit`) and
every invocation of the configured `onChange` callback (`_triggerChange`).
DOM-only updates (`_updateDisplay`, `_updatePlayButton`, `_updateSliderRange`,
panel CSS) have no observable effect on the modelled state and produce no
trace entries.  JavaScript numbers used as indices are modelled as `Int`.
-/

namespace TimeSlider

/-- The event names of `TimeSliderEvent` in `types.ts`. -/
inductive TSEvent where
  | change
  | play
  | pause
  | collapse
  | expand
  | statechange
  deriving DecidableEq, Repr

/-- Observable side effects of an operation, in the order they happen:
an `_emit(event)` call, or an `onChange(index, label)` callback invocation. -/
inductive Effect where
  | emit (e : TSEvent)
  | onChangeCall (index : Int) (label : String)
  deriving DecidableEq, Repr

/-- The control's mutable state: the fields of `TimeSliderState` together with
`_options.labels`, whether `_options.onChange` is configured, and the private
lifecycle fields (`_playbackInterval`, `_map`, `_mapContainer`, `_container`,
`_panel`, the three listener slots, `_eventHandlers`).  Object-valued fields
are modelled by their presence (`Bool`); the handler map by a list of
(event, handler-id) registrations. -/
structure TSState where
  labels : List String
  currentIndex : Int
  isPlaying : Bool
  speed : Int
  loop : Bool
  collapsed : Bool
  panelWidth : Int
  hasOnChange : Bool
  timerActive : Bool
  hasMap : Bool
  hasMapContainer : Bool
  hasContainer : Bool
  hasPanel : Bool
  resizeHandler : Bool
  mapResizeHandler : Bool
  clickOutsideHandler : Bool
  eventHandlers : List (TSEvent × Nat)
  deriving DecidableEq, Repr

/-- Constructor options (`TimeSliderOptions` in `types.ts`); `labels` is
required, the rest are optional.  `onChange` records whether a callback was
supplied.  Presentation-only options (`title`, `position`, `className`,
`onAddLayer`, `beforeId`) are omitted: they never influence the modelled
state. -/
structure TimeSliderOptions where
  labels : List String
  collapsed : Option Bool := none
  panelWidth : Option Int := none
  initialIndex : Option Int := none
  speed : Option Int := none
  loop : Option Bool := none
  onChange : Bool := false

/-- The constructor: `this._options = { ...DEFAULT_OPTIONS, ...options }` and
`this._state = { collapsed, panelWidth, currentIndex: initialIndex, isPlaying:
false, speed, loop }`.  Note that neither `initialIndex` nor `speed` is
clamped here. -/
def mkTimeSliderControl (o : TimeSliderOptions) : TSState :=
  { labels := o.labels
    currentIndex := o.initialIndex.getD 0
    isPlaying := false
    speed := o.speed.getD 1000
    loop := o.loop.getD true
    collapsed := o.collapsed.getD true
    panelWidth := o.panelWidth.getD 300
    hasOnChange := o.onChange
    timerActive := false
    hasMap := false
    hasMapContainer := false
    hasContainer := false
    hasPanel := false
    resizeHandler := false
    mapResizeHandler := false
    clickOutsideHandler := false
    eventHandlers := [] }

/-- JavaScript array indexing `labels[i]`: the element when `0 ≤ i < length`,
otherwise `undefined`, modelled as `""`. -/
def jsLabelAt (labels : List String) (i : Int) : String :=
  if 0 ≤ i then labels.getD i.toNat "" else ""

/-- `getCurrentIndex()`. -/
def getCurrentIndex (s : TSState) : Int :=
  s.currentIndex

/-- `getCurrentLabel()`: `this._options.labels[this._state.currentIndex] || ''`. -/
def getCurrentLabel (s : TSState) : String :=
  jsLabelAt s.labels s.currentIndex

/-- `_triggerChange()`: invokes `onChange(currentIndex, labels[currentIndex])`
when configured. -/
def triggerChange (s : TSState) : List Effect :=
  if s.hasOnChange then
    [Effect.onChangeCall s.currentIndex (jsLabelAt s.labels s.currentIndex)]
  else []

/-- The clamping used by `goTo`:
`Math.max(0, Math.min(index, labels.length - 1))`. -/
def clampIndex (len : Nat) (i : Int) : Int :=
  max 0 (min i ((len : Int) - 1))

/-- `goTo(index)`: clamps, and when the clamped index differs from
`currentIndex`, commits the new index, runs `_updateDisplay`, triggers the
`onChange` callback (which therefore reads the already-committed state), then
emits `change` then `statechange`.  Otherwise it does nothing. -/
def goTo (s : TSState) (index : Int) : TSState × List Effect :=
  let clamped := clampIndex s.labels.length index
  if clamped ≠ s.currentIndex then
    let s' := { s with currentIndex := clamped }
    (s', triggerChange s' ++ [Effect.emit TSEvent.change, Effect.emit TSEvent.statechange])
  else
    (s, [])

/-- `next()`. -/
def next (s : TSState) : TSState × List Effect :=
  if s.currentIndex < (s.labels.length : Int) - 1 then
    goTo s (s.currentIndex + 1)
  else if s.loop then
    goTo s 0
  else
    (s, [])

/-- `prev()`. -/
def prev (s : TSState) : TSState × List Effect :=
  if s.currentIndex > 0 then
    goTo s (s.currentIndex - 1)
  else if s.loop then
    goTo s ((s.labels.length : Int) - 1)
  else
    (s, [])

/-- `play()`: no-op when already playing or when `labels` is empty; otherwise
sets `isPlaying`, installs the interval timer, and emits `play` then
`statechange`. -/
def play (s : TSState) : TSState × List Effect :=
  if s.isPlaying ∨ s.labels.length = 0 then
    (s, [])
  else
    ({ s with isPlaying := true, timerActive := true },
      [Effect.emit TSEvent.play, Effect.emit TSEvent.statechange])

/-- `pause()`: no-op when not playing; otherwise clears `isPlaying`, cancels
the interval timer, and emits `pause` then `statechange`. -/
def pause (s : TSState) : TSState × List Effect :=
  if s.isPlaying then
    ({ s with isPlaying := false, timerActive := false },
      [Effect.emit TSEvent.pause, Effect.emit TSEvent.statechange])
  else
    (s, [])

/-- One firing of the interval callback installed by `play()`: advance while
below the last index, wrap when looping, otherwise `pause()`. -/
def tick (s : TSState) : TSState × List Effect :=
  if s.currentIndex < (s.labels.length : Int) - 1 then
    goTo s (s.currentIndex + 1)
  else if s.loop then
    goTo s 0
  else
    pause s

/-- `setSpeed(speed)`: stores `Math.max(100, speed)`, restarts playback when
playing, and emits `statechange`. -/
def setSpeed (s : TSState) (speed : Int) : TSState × List Effect :=
  let s1 := { s with speed := max 100 speed }
  if s1.isPlaying then
    let p := pause s1
    let q := play p.1
    (q.1, p.2 ++ q.2 ++ [Effect.emit TSEvent.statechange])
  else
    (s1, [Effect.emit TSEvent.statechange])

/-- `setLoop(enabled)`. -/
def setLoop (s : TSState) (enabled : Bool) : TSState × List Effect :=
  ({ s with loop := enabled }, [Effect.emit TSEvent.statechange])

/-- `setLabels(labels, resetIndex = true)`: replaces the labels, resets
`currentIndex` to 0 when `resetIndex` is set or
`currentIndex >= labels.length`, and emits `statechange` only. -/
def setLabels (s : TSState) (labels : List String) (resetIndex : Bool := true) :
    TSState × List Effect :=
  let s1 := { s with labels := labels }
  let s2 :=
    if resetIndex ∨ (labels.length : Int) ≤ s1.currentIndex then
      { s1 with currentIndex := 0 }
    else s1
  (s2, [Effect.emit TSEvent.statechange])

/-- `toggle()`: flips `collapsed`; emits `collapse`/`expand` only when the
panel element exists, and always emits `statechange`. -/
def toggle (s : TSState) : TSState × List Effect :=
  let s1 := { s with collapsed := !s.collapsed }
  if s1.hasPanel then
    if s1.collapsed then
      (s1, [Effect.emit TSEvent.collapse, Effect.emit TSEvent.statechange])
    else
      (s1, [Effect.emit TSEvent.expand, Effect.emit TSEvent.statechange])
  else
    (s1, [Effect.emit TSEvent.statechange])

/-- `expand()`: `toggle()` when collapsed, else nothing. -/
def expand (s : TSState) : TSState × List Effect :=
  if s.collapsed then toggle s else (s, [])

/-- `collapse()`: `toggle()` when expanded, else nothing. -/
def collapse (s : TSState) : TSState × List Effect :=
  if s.collapsed then (s, []) else toggle s

/-- `onRemove()`: `this.pause()`, then removal of the three listeners (the
map-resize listener is only removed when both the handler and `_map` are
present, mirroring `if (this._mapResizeHandler && this._map)`), removal of
panel and container from the DOM, clearing of `_map`, `_mapContainer`,
`_container`, `_panel`, and `this._eventHandlers.clear()`. -/
def onRemove (s : TSState) : TSState × List Effect :=
  let p := pause s
  let s1 := { p.1 with
    resizeHandler := false
    mapResizeHandler :=
      if p.1.mapResizeHandler ∧ p.1.hasMap then false else p.1.mapResizeHandler
    clickOutsideHandler := false }
  let s2 := { s1 with
    hasMap := false
    hasMapContainer := false
    hasContainer := false
    hasPanel := false
    eventHandlers := [] }
  (s2, p.2)

/-- The navigation operations quantified over in the bounds-invariant claim. -/
inductive NavOp where
  | goTo (i : Int)
  | next
  | prev
  deriving DecidableEq, Repr

/-- Run one navigation operation, keeping only the state. -/
def runNavOp (s : TSState) : NavOp → TSState
  | NavOp.goTo i => (goTo s i).1
  | NavOp.next => (next s).1
  | NavOp.prev => (prev s).1

/-- Run a finite sequence of navigation operations. -/
def runNavOps (s : TSState) (ops : List NavOp) : TSState :=
  ops.foldl runNavOp s

/-- The bounds invariant carried through navigation sequences. -/
def InBounds (s : TSState) : Prop :=
  0 ≤ s.currentIndex ∧ s.currentIndex ≤ (s.labels.length : Int) - 1

/-- A concrete attached, playing control (host, panel, listeners and one
registered handler present) used to instantiate the lifecycle theorems. -/
def attachedPlayingState : TSState :=
  { mkTimeSliderControl { labels := ["a", "b"] } with
    isPlaying := true
    timerActive := true
    hasMap := true
    hasMapContainer := true
    hasContainer := true
    hasPanel := true
    resizeHandler := true
    mapResizeHandler := true
    clickOutsideHandler := true
    eventHandlers := [(TSEvent.change, 0)] }

lemma goTo_labels (s : TSState) (i : Int) : (goTo s i).1.labels = s.labels := by
  simp only [goTo]
  split <;> rfl

lemma goTo_inBounds (s : TSState) (i : Int) (hlen : 0 < s.labels.length)
    (h : InBounds s) : InBounds (goTo s i).1 := by
  simp only [goTo]
  split
  · refine ⟨?_, ?_⟩ <;> simp only [clampIndex] <;> omega
  · exact h

lemma next_labels (s : TSState) : (next s).1.labels = s.labels := by
  simp only [next]
  split
  · exact goTo_labels s _
  · split
    · exact goTo_labels s _
    · rfl

lemma next_inBounds (s : TSState) (hlen : 0 < s.labels.length)
    (h : InBounds s) : InBounds (next s).1 := by
  simp only [next]
  split
  · exact goTo_inBounds s _ hlen h
  · split
    · exact goTo_inBounds s _ hlen h
    · exact h

lemma prev_labels (s : TSState) : (prev s).1.labels = s.labels := by
  simp only [prev]
  split
  · exact goTo_labels s _
  · split
    · exact goTo_labels s _
    · rfl

lemma prev_inBounds (s : TSState) (hlen : 0 < s.labels.length)
    (h : InBounds s) : InBounds (prev s).1 := by
  simp only [prev]
  split
  · exact goTo_inBounds s _ hlen h
  · split
    · exact goTo_inBounds s _ hlen h
    · exact h

lemma runNavOp_labels (s : TSState) (op : NavOp) : (runNavOp s op).labels = s.labels := by
  cases op with
  | goTo i => exact goTo_labels s i
  | next => exact next_labels s
  | prev => exact prev_labels s

lemma runNavOp_inBounds (s : TSState) (op : NavOp) (hlen : 0 < s.labels.length)
    (h : InBounds s) : InBounds (runNavOp s op) := by
  cases op with
  | goTo i => exact goTo_inBounds s i hlen h
  | next => exact next_inBounds s hlen h
  | prev => exact prev_inBounds s hlen h

lemma runNavOps_labels (s : TSState) (ops : List NavOp) :
    (runNavOps s ops).labels = s.labels := by
  induction ops generalizing s with
  | nil => rfl
  | cons op ops ih =>
      show (runNavOps (runNavOp s op) ops).labels = s.labels
      rw [ih, runNavOp_labels]

/-- C1.  Bounds invariant: for every label sequence with `labels.length > 0`
and every finite sequence of `goTo`, `next`, `prev` calls with arbitrary
integer arguments, starting from a state whose `currentIndex` lies in
`[0, labels.length - 1]`, the `currentIndex` after every call remains in
`[0, labels.length - 1]` (every prefix of a call sequence is itself a call
sequence, so this covers each intermediate state). -/
theorem bounds_invariant_nav_ops (s : TSState) (ops : List NavOp)
    (hlen : 0 < s.labels.length) (h0 : 0 ≤ s.currentIndex)
    (h1 : s.currentIndex ≤ (s.labels.length : Int) - 1) :
    0 ≤ (runNavOps s ops).currentIndex ∧
      (runNavOps s ops).currentIndex ≤ ((runNavOps s ops).labels.length : Int) - 1 := by
  rw [runNavOps_labels]
  have main : ∀ (ops : List NavOp) (s : TSState), 0 < s.labels.length →
      InBounds s → InBounds (runNavOps s ops) ∧ (runNavOps s ops).labels = s.labels := by
    intro ops
    induction ops with
    | nil => exact fun s _ h => ⟨h, rfl⟩
    | cons op ops ih =>
        intro s hlen h
        have hlab := runNavOp_labels s op
        have hlen' : 0 < (runNavOp s op).labels.length := by rw [hlab]; exact hlen
        have h' := runNavOp_inBounds s op hlen h
        have := ih (runNavOp s op) hlen' h'
        exact ⟨this.1, by rw [show runNavOps s (op :: ops) = runNavOps (runNavOp s op) ops from rfl,
          this.2, hlab]⟩
  have := (main ops s hlen ⟨h0, h1⟩).1
  have hlab := runNavOps_labels s ops
  exact ⟨this.1, by have := this.2; rw [hlab] at this; exact this⟩

/-- Witness for C1 at a concrete state and call sequence. -/
theorem bounds_invariant_nav_ops_witness :
    0 < (mkTimeSliderControl { labels := ["a", "b", "c"] }).labels.length ∧
    0 ≤ (mkTimeSliderControl { labels := ["a", "b", "c"] }).currentIndex ∧
    (mkTimeSliderControl { labels := ["a", "b", "c"] }).currentIndex ≤
      ((mkTimeSliderControl { labels := ["a", "b", "c"] }).labels.length : Int) - 1 ∧
    (0 ≤ (runNavOps (mkTimeSliderControl { labels := ["a", "b", "c"] })
        [NavOp.goTo (-7), NavOp.prev, NavOp.goTo 100, NavOp.next]).currentIndex ∧
      (runNavOps (mkTimeSliderControl { labels := ["a", "b", "c"] })
        [NavOp.goTo (-7), NavOp.prev, NavOp.goTo 100, NavOp.next]).currentIndex ≤
        ((runNavOps (mkTimeSliderControl { labels := ["a", "b", "c"] })
          [NavOp.goTo (-7), NavOp.prev, NavOp.goTo 100, NavOp.next]).labels.length : Int) - 1) :=
  ⟨by decide, by decide, by decide,
    bounds_invariant_nav_ops _ _ (by decide) (by decide) (by decide)⟩

lemma goTo_noop_of_clamp_eq (s : TSState) (i : Int)
    (h : clampIndex s.labels.length i = s.currentIndex) :
    goTo s i = (s, []) := by
  simp only [goTo]
  simp [h]

/-- C3.  Idempotence of `goTo`: when clamping the argument yields the current
index, `goTo` changes no state, invokes no `onChange` callback and emits no
event. -/
theorem goTo_noop_when_clamped_equals_current (s : TSState) (i : Int)
    (h : clampIndex s.labels.length i = s.currentIndex) :
    goTo s i = (s, []) :=
  goTo_noop_of_clamp_eq s i h

/-- Witness for C3: `goTo 1` at current index 1 of a two-label sequence. -/
theorem goTo_noop_witness :
    clampIndex (mkTimeSliderControl { labels := ["a", "b"], initialIndex := some 1 }).labels.length 1 =
      (mkTimeSliderControl { labels := ["a", "b"], initialIndex := some 1 }).currentIndex ∧
    goTo (mkTimeSliderControl { labels := ["a", "b"], initialIndex := some 1 }) 1 =
      (mkTimeSliderControl { labels := ["a", "b"], initialIndex := some 1 }, []) :=
  ⟨by decide, goTo_noop_when_clamped_equals_current _ 1 (by decide)⟩

/-- C2.  Event and callback ordering of `goTo`: when the clamped index differs
from `currentIndex`, `goTo` commits the new index, then (when an `onChange`
callback is configured) invokes the callback, which observes the new index via
`getCurrentIndex`, then emits `change`, and emits `statechange` strictly after
`change`. -/
theorem goTo_ordering (s : TSState) (i : Int)
    (h : clampIndex s.labels.length i ≠ s.currentIndex) :
    (goTo s i).1.currentIndex = clampIndex s.labels.length i ∧
    (goTo s i).2 =
      (if s.hasOnChange then
        [Effect.onChangeCall (getCurrentIndex (goTo s i).1)
          (jsLabelAt s.labels (getCurrentIndex (goTo s i).1))]
      else []) ++ [Effect.emit TSEvent.change, Effect.emit TSEvent.statechange] := by
  simp only [goTo, triggerChange, getCurrentIndex, if_pos h]
  exact ⟨trivial, trivial⟩

/-- Witness for C2: `goTo 2` from index 0 of a three-label sequence with a
configured callback. -/
theorem goTo_ordering_witness :
    clampIndex (mkTimeSliderControl { labels := ["a", "b", "c"], onChange := true }).labels.length 2 ≠
      (mkTimeSliderControl { labels := ["a", "b", "c"], onChange := true }).currentIndex ∧
    ((goTo (mkTimeSliderControl { labels := ["a", "b", "c"], onChange := true }) 2).1.currentIndex =
        clampIndex (mkTimeSliderControl { labels := ["a", "b", "c"], onChange := true }).labels.length 2 ∧
      (goTo (mkTimeSliderControl { labels := ["a", "b", "c"], onChange := true }) 2).2 =
        (if (mkTimeSliderControl { labels := ["a", "b", "c"], onChange := true }).hasOnChange then
          [Effect.onChangeCall
            (getCurrentIndex (goTo (mkTimeSliderControl { labels := ["a", "b", "c"], onChange := true }) 2).1)
            (jsLabelAt (mkTimeSliderControl { labels := ["a", "b", "c"], onChange := true }).labels
              (getCurrentIndex (goTo (mkTimeSliderControl { labels := ["a", "b", "c"], onChange := true }) 2).1))]
        else []) ++ [Effect.emit TSEvent.change, Effect.emit TSEvent.statechange]) :=
  ⟨by decide, goTo_ordering _ 2 (by decide)⟩

/-- C4.  Playback auto-termination with `loop = false`: a tick strictly below
the last index advances the index by one; a tick at the last index is exactly
`pause()`; and concretely, `play()` at index 1 of `["a", "b", "c"]` followed by
two ticks ends at index 2 with `isPlaying = false`, the timer cancelled, and
exactly one `pause` event emitted over the whole run. -/
theorem playback_auto_termination :
    (∀ s : TSState, s.loop = false → 0 ≤ s.currentIndex →
      s.currentIndex < (s.labels.length : Int) - 1 →
      (tick s).1.currentIndex = s.currentIndex + 1) ∧
    (∀ s : TSState, s.loop = false → 0 < s.labels.length →
      s.currentIndex = (s.labels.length : Int) - 1 →
      tick s = pause s) ∧
    (let s0 := mkTimeSliderControl
      { labels := ["a", "b", "c"], initialIndex := some 1, loop := some false, speed := some 100 }
    let p := play s0
    let t1 := tick p.1
    let t2 := tick t1.1
    t2.1.currentIndex = 2 ∧ t2.1.isPlaying = false ∧ t2.1.timerActive = false ∧
      (p.2 ++ t1.2 ++ t2.2).count (Effect.emit TSEvent.pause) = 1) := by
  refine ⟨?_, ?_, by decide⟩
  · intro s hl h0 hlt
    have hc : clampIndex s.labels.length (s.currentIndex + 1) = s.currentIndex + 1 := by
      simp only [clampIndex]
      omega
    simp only [tick, if_pos hlt, goTo, hc]
    rw [if_pos (show s.currentIndex + 1 ≠ s.currentIndex from by omega)]
  · intro s hl hlen heq
    simp only [tick, hl]
    rw [if_neg (by omega)]
    simp

/-- Witness for C4 at a concrete state: one tick from index 0 of two labels
advances to 1, and a tick at the last index of one playing label pauses. -/
theorem playback_auto_termination_witness :
    ((mkTimeSliderControl { labels := ["a", "b"], loop := some false }).loop = false ∧
      0 ≤ (mkTimeSliderControl { labels := ["a", "b"], loop := some false }).currentIndex ∧
      (mkTimeSliderControl { labels := ["a", "b"], loop := some false }).currentIndex <
        ((mkTimeSliderControl { labels := ["a", "b"], loop := some false }).labels.length : Int) - 1 ∧
      (tick (mkTimeSliderControl { labels := ["a", "b"], loop := some false })).1.currentIndex =
        (mkTimeSliderControl { labels := ["a", "b"], loop := some false }).currentIndex + 1) ∧
    ((play (mkTimeSliderControl { labels := ["a"], loop := some false })).1.loop = false ∧
      0 < (play (mkTimeSliderControl { labels := ["a"], loop := some false })).1.labels.length ∧
      (play (mkTimeSliderControl { labels := ["a"], loop := some false })).1.currentIndex =
        ((play (mkTimeSliderControl { labels := ["a"], loop := some false })).1.labels.length : Int) - 1 ∧
      tick (play (mkTimeSliderControl { labels := ["a"], loop := some false })).1 =
        pause (play (mkTimeSliderControl { labels := ["a"], loop := some false })).1) :=
  ⟨⟨by decide, by decide, by decide,
      playback_auto_termination.1 _ (by decide) (by decide) (by decide)⟩,
    ⟨by decide, by decide, by decide,
      playback_auto_termination.2.1 _ (by decide) (by decide) (by decide)⟩⟩

/-- C5 counterexample: constructing with `labels = ["a"]` and
`initialIndex = 5` stores `currentIndex = 5`, while clamping 5 into
`[0, 0]` yields 0 — the out-of-range `initialIndex` survives construction. -/
theorem ctor_initialIndex_not_clamped :
    (mkTimeSliderControl { labels := ["a"], initialIndex := some 5 }).currentIndex = 5 ∧
    clampIndex (mkTimeSliderControl { labels := ["a"], initialIndex := some 5 }).labels.length 5 = 0 ∧
    (mkTimeSliderControl { labels := ["a"], initialIndex := some 5 }).currentIndex ≠
      clampIndex (mkTimeSliderControl { labels := ["a"], initialIndex := some 5 }).labels.length 5 := by
  decide

/-- C5 amended: the constructor stores the configured `initialIndex`
(defaulting to 0) without clamping, for every configuration. -/
theorem ctor_currentIndex_unclamped (o : TimeSliderOptions) :
    (mkTimeSliderControl o).currentIndex = o.initialIndex.getD 0 :=
  rfl

/-- C6 counterexample: constructing with `speed = 10` stores runtime speed 10,
violating the ≥ 100 floor right after construction. -/
theorem ctor_speed_not_floored :
    (mkTimeSliderControl { labels := ["a"], speed := some 10 }).speed = 10 ∧
    ¬ (100 ≤ (mkTimeSliderControl { labels := ["a"], speed := some 10 }).speed) := by
  decide

/-- C6 amended: every `setSpeed(ms)` call stores `max 100 ms`, hence leaves
`speed ≥ 100`, and `setSpeed 10` yields effective speed 100; the constructor,
however, stores the configured speed unclamped. -/
theorem setSpeed_floor (s : TSState) (ms : Int) :
    (setSpeed s ms).1.speed = max 100 ms ∧ 100 ≤ (setSpeed s ms).1.speed ∧
    (setSpeed s 10).1.speed = 100 := by
  have hgen : ∀ (t : TSState) (m : Int), (setSpeed t m).1.speed = max 100 m := by
    intro t m
    by_cases ht : t.isPlaying
    · by_cases hlen : t.labels.length = 0
      · simp [setSpeed, pause, play, ht, hlen]
      · simp [setSpeed, pause, play, ht, hlen]
    · simp [setSpeed, pause, play, ht]
  refine ⟨hgen s ms, ?_, ?_⟩
  · rw [hgen s ms]
    exact le_max_left 100 ms
  · rw [hgen s 10]
    rfl

/-- C7.  Label replacement policy: `setLabels(newLabels, resetIndex)` installs
the new labels, resets `currentIndex` to 0 exactly when `resetIndex` is true
or the current index is out of bounds for `newLabels` (otherwise it is
preserved), and emits `statechange` only — no `change` event, no `onChange`
callback. -/
theorem setLabels_reset_policy (s : TSState) (newLabels : List String)
    (resetIndex : Bool) (h0 : 0 ≤ s.currentIndex) :
    (setLabels s newLabels resetIndex).1.labels = newLabels ∧
    (setLabels s newLabels resetIndex).1.currentIndex =
      (if resetIndex ∨ ¬ (0 ≤ s.currentIndex ∧ s.currentIndex < (newLabels.length : Int)) then 0
       else s.currentIndex) ∧
    (setLabels s newLabels resetIndex).2 = [Effect.emit TSEvent.statechange] := by
  by_cases hc : resetIndex = true ∨ (newLabels.length : Int) ≤ s.currentIndex
  · have hc' : resetIndex = true ∨
        ¬ (0 ≤ s.currentIndex ∧ s.currentIndex < (newLabels.length : Int)) := by
      rcases hc with h | h
      · exact Or.inl h
      · exact Or.inr (fun hh => by omega)
    simp [setLabels, hc, hc']
    split_ifs with h
    · rfl
    · exact absurd (hc.imp id (fun hle => fun _ => hle)) h
  · rcases not_or.mp hc with ⟨hr, hlt⟩
    have hlt' : s.currentIndex < (newLabels.length : Int) := by omega
    have hc' : ¬ (resetIndex = true ∨
        ¬ (0 ≤ s.currentIndex ∧ s.currentIndex < (newLabels.length : Int))) :=
      not_or.mpr ⟨hr, fun hh => hh ⟨h0, hlt'⟩⟩
    simp [setLabels, hc, hc']
    split_ifs with h
    · rcases h with h | h
      · exact absurd h hr
      · exact absurd (h h0) hlt
    · rfl

/-- Witness for C7: `setLabels ["x", "y"] false` at index 4 of a five-label
sequence resets the index to 0. -/
theorem setLabels_reset_policy_witness :
    0 ≤ (mkTimeSliderControl { labels := ["a", "b", "c", "d", "e"], initialIndex := some 4 }).currentIndex ∧
    ((setLabels (mkTimeSliderControl { labels := ["a", "b", "c", "d", "e"], initialIndex := some 4 })
        ["x", "y"] false).1.labels = ["x", "y"] ∧
      (setLabels (mkTimeSliderControl { labels := ["a", "b", "c", "d", "e"], initialIndex := some 4 })
        ["x", "y"] false).1.currentIndex =
        (if (false : Bool) ∨ ¬ (0 ≤ (mkTimeSliderControl
              { labels := ["a", "b", "c", "d", "e"], initialIndex := some 4 }).currentIndex ∧
            (mkTimeSliderControl
              { labels := ["a", "b", "c", "d", "e"], initialIndex := some 4 }).currentIndex <
              ((["x", "y"] : List String).length : Int)) then 0
         else (mkTimeSliderControl
            { labels := ["a", "b", "c", "d", "e"], initialIndex := some 4 }).currentIndex) ∧
      (setLabels (mkTimeSliderControl { labels := ["a", "b", "c", "d", "e"], initialIndex := some 4 })
        ["x", "y"] false).2 = [Effect.emit TSEvent.statechange]) :=
  ⟨by decide, setLabels_reset_policy _ ["x", "y"] false (by decide)⟩

/-- C8.  Empty-sequence safety: with no labels and `currentIndex = 0`, every
`goTo`, `next`, `prev` and `play` call is a total no-op — state unchanged, no
callback, no event (and, the operations being total Lean functions evaluated
at this input, nothing throws). -/
theorem empty_labels_all_noop (s : TSState) (i : Int)
    (hl : s.labels = []) (hc : s.currentIndex = 0) :
    goTo s i = (s, []) ∧ next s = (s, []) ∧ prev s = (s, []) ∧ play s = (s, []) := by
  have hclamp : ∀ j : Int, clampIndex s.labels.length j = s.currentIndex := by
    intro j
    simp only [clampIndex, hl, hc, List.length_nil, Nat.cast_zero]
    omega
  refine ⟨goTo_noop_of_clamp_eq s i (hclamp i), ?_, ?_, ?_⟩
  · simp only [next]
    rw [if_neg (by rw [hl, hc]; simp)]
    split
    · exact goTo_noop_of_clamp_eq s 0 (hclamp 0)
    · rfl
  · simp only [prev]
    rw [if_neg (by rw [hc]; simp)]
    split
    · exact goTo_noop_of_clamp_eq s _ (hclamp _)
    · rfl
  · simp only [play]
    rw [if_pos (Or.inr (by rw [hl]; rfl))]

/-- Witness for C8 at the empty construction. -/
theorem empty_labels_all_noop_witness :
    (mkTimeSliderControl { labels := [] }).labels = [] ∧
    (mkTimeSliderControl { labels := [] }).currentIndex = 0 ∧
    (goTo (mkTimeSliderControl { labels := [] }) (-3) = (mkTimeSliderControl { labels := [] }, []) ∧
      next (mkTimeSliderControl { labels := [] }) = (mkTimeSliderControl { labels := [] }, []) ∧
      prev (mkTimeSliderControl { labels := [] }) = (mkTimeSliderControl { labels := [] }, []) ∧
      play (mkTimeSliderControl { labels := [] }) = (mkTimeSliderControl { labels := [] }, [])) :=
  ⟨by decide, by decide, empty_labels_all_noop _ (-3) (by decide) (by decide)⟩

lemma onRemove_detached_noop (t : TSState) (hip : t.isPlaying = false)
    (hrh : t.resizeHandler = false) (hch : t.clickOutsideHandler = false)
    (hmap : t.hasMap = false) (hmc : t.hasMapContainer = false)
    (hcont : t.hasContainer = false) (hpan : t.hasPanel = false)
    (heh : t.eventHandlers = []) : onRemove t = (t, []) := by
  cases t
  simp only at hip hrh hch hmap hmc hcont hpan heh
  subst hip hrh hch hmap hmc hcont hpan heh
  simp [onRemove, pause]

/-- C9.  Detach contract: under the reachable-state invariants that an active
timer implies `isPlaying` and a registered map-resize listener implies an
attached host, `onRemove` pauses playback (its whole effect trace is exactly
`pause`'s, emitted first), cancels the timer, releases the three listeners,
detaches panel and container, clears the event-handler registrations and the
host references; it is idempotent — a second call, or a call on a
never-attached fresh construction, is a no-op with no effects. -/
theorem onRemove_detach_contract (s : TSState) (o : TimeSliderOptions)
    (hti : s.timerActive = true → s.isPlaying = true)
    (hm : s.mapResizeHandler = true → s.hasMap = true) :
    (onRemove s).1.isPlaying = false ∧
    (onRemove s).1.timerActive = false ∧
    (onRemove s).1.resizeHandler = false ∧
    (onRemove s).1.mapResizeHandler = false ∧
    (onRemove s).1.clickOutsideHandler = false ∧
    (onRemove s).1.hasPanel = false ∧
    (onRemove s).1.hasContainer = false ∧
    (onRemove s).1.eventHandlers = [] ∧
    (onRemove s).1.hasMap = false ∧
    (onRemove s).1.hasMapContainer = false ∧
    (onRemove s).2 = (pause s).2 ∧
    onRemove (onRemove s).1 = ((onRemove s).1, []) ∧
    onRemove (mkTimeSliderControl o) = (mkTimeSliderControl o, []) := by
  have hip : (onRemove s).1.isPlaying = false := by
    by_cases hp : s.isPlaying = true <;> simp [onRemove, pause, hp]
  have hta : (onRemove s).1.timerActive = false := by
    by_cases hp : s.isPlaying = true
    · simp [onRemove, pause, hp]
    · have h2 : s.timerActive = false := by
        cases h : s.timerActive
        · rfl
        · exact absurd (hti h) hp
      simp [onRemove, pause, hp, h2]
  have hrh : (onRemove s).1.resizeHandler = false := by
    by_cases hp : s.isPlaying = true <;> simp [onRemove, pause, hp]
  have hmr : (onRemove s).1.mapResizeHandler = false := by
    by_cases hmh : s.mapResizeHandler = true
    · have hmap := hm hmh
      by_cases hp : s.isPlaying = true <;> simp [onRemove, pause, hp, hmh, hmap]
    · have h1 : s.mapResizeHandler = false := by
        cases h : s.mapResizeHandler
        · rfl
        · exact absurd h hmh
      by_cases hp : s.isPlaying = true <;> simp [onRemove, pause, hp, h1]
  have hch : (onRemove s).1.clickOutsideHandler = false := by
    by_cases hp : s.isPlaying = true <;> simp [onRemove, pause, hp]
  have hpan : (onRemove s).1.hasPanel = false := by
    by_cases hp : s.isPlaying = true <;> simp [onRemove, pause, hp]
  have hcont : (onRemove s).1.hasContainer = false := by
    by_cases hp : s.isPlaying = true <;> simp [onRemove, pause, hp]
  have heh : (onRemove s).1.eventHandlers = [] := by
    by_cases hp : s.isPlaying = true <;> simp [onRemove, pause, hp]
  have hmap : (onRemove s).1.hasMap = false := by
    by_cases hp : s.isPlaying = true <;> simp [onRemove, pause, hp]
  have hmc : (onRemove s).1.hasMapContainer = false := by
    by_cases hp : s.isPlaying = true <;> simp [onRemove, pause, hp]
  exact ⟨hip, hta, hrh, hmr, hch, hpan, hcont, heh, hmap, hmc, rfl,
    onRemove_detached_noop _ hip hrh hch hmap hmc hcont hpan heh,
    onRemove_detached_noop _ rfl rfl rfl rfl rfl rfl rfl rfl⟩

/-- Witness for C9 at a concrete attached, playing control. -/
theorem onRemove_detach_contract_witness :
    (attachedPlayingState.timerActive = true → attachedPlayingState.isPlaying = true) ∧
    (attachedPlayingState.mapResizeHandler = true → attachedPlayingState.hasMap = true) ∧
    ((onRemove attachedPlayingState).1.isPlaying = false ∧
      (onRemove attachedPlayingState).1.timerActive = false ∧
      (onRemove attachedPlayingState).1.resizeHandler = false ∧
      (onRemove attachedPlayingState).1.mapResizeHandler = false ∧
      (onRemove attachedPlayingState).1.clickOutsideHandler = false ∧
      (onRemove attachedPlayingState).1.hasPanel = false ∧
      (onRemove attachedPlayingState).1.hasContainer = false ∧
      (onRemove attachedPlayingState).1.eventHandlers = [] ∧
      (onRemove attachedPlayingState).1.hasMap = false ∧
      (onRemove attachedPlayingState).1.hasMapContainer = false ∧
      (onRemove attachedPlayingState).2 = (pause attachedPlayingState).2 ∧
      onRemove (onRemove attachedPlayingState).1 = ((onRemove attachedPlayingState).1, []) ∧
      onRemove (mkTimeSliderControl { labels := ["a"] }) =
        (mkTimeSliderControl { labels := ["a"] }, [])) :=
  ⟨by decide, by decide,
    onRemove_detach_contract attachedPlayingState { labels := ["a"] }
      (by decide) (by decide)⟩

/-- C10.  Panel-visibility operations: with no panel attached, `toggle` still
flips `collapsed` but emits only `statechange` (the specific
`collapse`/`expand` events need the panel); `expand` when already expanded and
`collapse` when already collapsed change nothing and emit nothing. -/
theorem toggle_expand_collapse_policy (s : TSState) :
    (s.hasPanel = false →
      toggle s = ({ s with collapsed := !s.collapsed }, [Effect.emit TSEvent.statechange])) ∧
    (s.collapsed = false → expand s = (s, [])) ∧
    (s.collapsed = true → collapse s = (s, [])) := by
  refine ⟨fun h => ?_, fun h => ?_, fun h => ?_⟩
  · simp [toggle, h]
  · simp [expand, h]
  · simp [collapse, h]

/-- Witness for C10 at concrete expanded and collapsed controls without a
panel. -/
theorem toggle_expand_collapse_policy_witness :
    ((mkTimeSliderControl { labels := ["a"], collapsed := some false }).hasPanel = false ∧
      toggle (mkTimeSliderControl { labels := ["a"], collapsed := some false }) =
        ({ mkTimeSliderControl { labels := ["a"], collapsed := some false } with
            collapsed := !(mkTimeSliderControl { labels := ["a"], collapsed := some false }).collapsed },
          [Effect.emit TSEvent.statechange])) ∧
    ((mkTimeSliderControl { labels := ["a"], collapsed := some false }).collapsed = false ∧
      expand (mkTimeSliderControl { labels := ["a"], collapsed := some false }) =
        (mkTimeSliderControl { labels := ["a"], collapsed := some false }, [])) ∧
    ((mkTimeSliderControl { labels := ["a"] }).collapsed = true ∧
      collapse (mkTimeSliderControl { labels := ["a"] }) =
        (mkTimeSliderControl { labels := ["a"] }, [])) :=
  ⟨⟨by decide,
      (toggle_expand_collapse_policy (mkTimeSliderControl { labels := ["a"], collapsed := some false })).1
        (by decide)⟩,
    ⟨by decide,
      (toggle_expand_collapse_policy (mkTimeSliderControl { labels := ["a"], collapsed := some false })).2.1
        (by decide)⟩,
    ⟨by decide,
      (toggle_expand_collapse_policy (mkTimeSliderControl { labels := ["a"] })).2.2
        (by decide)⟩⟩

end TimeSlider
